import Mathlib

/-!
Verification development for the fantasy-football data-fusion and
composite-scoring pipeline (sources: advanced_stats.py, internal_rankings.py,
nfl_info.py).

Numeric columns in the source are pandas float64 Series.  We embed them with
the type `Fl`: an exact rational together with the IEEE special values NaN,
+inf and -inf.  Arithmetic over `Fl` follows IEEE semantics (NaN propagates,
0/0 = NaN, x/0 = ±inf for x ≠ 0), with real arithmetic replaced by exact
rational arithmetic.  `Option`/`none` is not used for missing data because
pandas represents missingness as NaN inside the float columns themselves.
-/

inductive Fl where
  | nan : Fl
  | inf : Fl
  | ninf : Fl
  | val (q : ℚ) : Fl
deriving DecidableEq

namespace Fl

def isNan : Fl → Bool
  | nan => true
  | _ => false

def add : Fl → Fl → Fl
  | nan, _ => nan
  | _, nan => nan
  | inf, ninf => nan
  | ninf, inf => nan
  | inf, _ => inf
  | _, inf => inf
  | ninf, _ => ninf
  | _, ninf => ninf
  | val a, val b => val (a + b)

def neg : Fl → Fl
  | nan => nan
  | inf => ninf
  | ninf => inf
  | val a => val (-a)

def sub (x y : Fl) : Fl := x.add y.neg

def mul : Fl → Fl → Fl
  | nan, _ => nan
  | _, nan => nan
  | inf, inf => inf
  | inf, ninf => ninf
  | ninf, inf => ninf
  | ninf, ninf => inf
  | inf, val b => if b = 0 then nan else if 0 < b then inf else ninf
  | val a, inf => if a = 0 then nan else if 0 < a then inf else ninf
  | ninf, val b => if b = 0 then nan else if 0 < b then ninf else inf
  | val a, ninf => if a = 0 then nan else if 0 < a then ninf else inf
  | val a, val b => val (a * b)

def div : Fl → Fl → Fl
  | nan, _ => nan
  | _, nan => nan
  | inf, inf => nan
  | inf, ninf => nan
  | ninf, inf => nan
  | ninf, ninf => nan
  | inf, val b => if 0 ≤ b then inf else ninf
  | ninf, val b => if 0 ≤ b then ninf else inf
  | val _, inf => val 0
  | val _, ninf => val 0
  | val a, val b =>
    if b = 0 then (if a = 0 then nan else if 0 < a then inf else ninf)
    else val (a / b)

/-- Boolean strict comparison; any comparison with NaN is false (IEEE). -/
def blt : Fl → Fl → Bool
  | nan, _ => false
  | _, nan => false
  | ninf, ninf => false
  | ninf, _ => true
  | _, ninf => false
  | inf, _ => false
  | val _, inf => true
  | val a, val b => decide (a < b)

/-- Boolean non-strict comparison; any comparison with NaN is false (IEEE). -/
def ble : Fl → Fl → Bool
  | nan, _ => false
  | _, nan => false
  | ninf, _ => true
  | inf, inf => true
  | inf, _ => false
  | val _, inf => true
  | val _, ninf => false
  | val a, val b => decide (a ≤ b)

def bgt (x y : Fl) : Bool := blt y x

def bge (x y : Fl) : Bool := ble y x

/-- pandas Series.fillna(q) on one cell. -/
def fillna (x : Fl) (q : ℚ) : Fl := if x.isNan then val q else x

/-- pandas Series.replace(0, 1) on one cell: exact zeros become 1. -/
def replaceZeroWithOne (x : Fl) : Fl := if x = val 0 then val 1 else x

/-- pandas Series.clip(lo, hi) on one cell (NaN passes through). -/
def clip (x : Fl) (lo hi : ℚ) : Fl :=
  match x with
  | nan => nan
  | inf => val hi
  | ninf => val lo
  | val a => val (min (max a lo) hi)

/-- pandas Series.clip(lo) (lower bound only) on one cell. -/
def clipLower (x : Fl) (lo : ℚ) : Fl :=
  match x with
  | nan => nan
  | inf => inf
  | ninf => val lo
  | val a => val (max a lo)

/-- `x` is not an infinity (it is a number or NaN); real float columns produced
from finite data satisfy this. -/
def finOrNan (x : Fl) : Prop := x ≠ inf ∧ x ≠ ninf

instance (x : Fl) : Decidable (finOrNan x) := by unfold finOrNan; infer_instance

/-- The non-NaN entries of a column, as pandas skipna aggregation sees them. -/
def dropNan (xs : List Fl) : List Fl := xs.filter (fun x => !x.isNan)

def listSum (xs : List Fl) : Fl := xs.foldr add (val 0)

/-- pandas Series.mean(): mean of non-NaN entries, NaN when there are none
(the 0/0 case of `div` yields NaN). -/
def listMean (xs : List Fl) : Fl :=
  (listSum (dropNan xs)).div (val ((dropNan xs).length : ℚ))

/-- pandas Series.var() with ddof = 1 (the square of Series.std()): NaN when
fewer than two non-NaN entries exist, else the sample variance. -/
def listVar (xs : List Fl) : Fl :=
  let nn := dropNan xs
  if nn.length ≤ 1 then nan
  else
    let m := listMean xs
    (listSum (nn.map (fun x => (x.sub m).mul (x.sub m)))).div
      (val (((nn.length - 1 : ℕ) : ℚ)))

end Fl

/-!
Z-score values.  The z-score lambda in the source is
`(x - x.mean()) / (x.std() if x.std() != 0 else 1)`.
`std` is the square root of the sample variance, which is irrational in
general, so a z-value is represented exactly as either NaN, a plain rational
(covering the degenerate divisor-1 branch: `std` equal to 0 means the
variance is 0), or the pending quotient `num / sqrt variance` for a nonzero
variance.  Note that when `std` is NaN (fewer than two non-NaN entries) the
Python guard `std != 0` is True, so the divisor is NaN and the z-score is
NaN: exactly the `ZVal.nan` arm below.
-/

inductive ZVal where
  | nan : ZVal
  | q (x : ℚ) : ZVal
  | sdiv (num : ℚ) (variance : ℚ) : ZVal
deriving DecidableEq

/-- One cell of the z-score transform: inputs are the cell value, the group
mean and the group sample variance. -/
def zOne (x m v : Fl) : ZVal :=
  match x, m, v with
  | .val a, .val mu, .val vv => if vv = 0 then .q (a - mu) else .sdiv (a - mu) vv
  | _, _, _ => .nan

/-- One cell of the sign-flipped z-score used for `norm_ypa_decline`:
`(x.mean() - x) / (x.std() if x.std() != 0 else 1)`. -/
def zOneDecline (x m v : Fl) : ZVal :=
  match x, m, v with
  | .val a, .val mu, .val vv => if vv = 0 then .q (mu - a) else .sdiv (mu - a) vv
  | _, _, _ => .nan

/-- `df.groupby(key)[col].transform(zscore-lambda)`: every row is mapped to
its z-score within the group of rows sharing its key. -/
def groupZ {α K : Type} [DecidableEq K] (rows : List α) (key : α → K) (f : α → Fl) :
    List ZVal :=
  rows.map (fun r =>
    let g := (rows.filter (fun s => decide (key s = key r))).map f
    zOne (f r) (Fl.listMean g) (Fl.listVar g))

/-- Same, for the sign-flipped decline z-score. -/
def groupZDecline {α K : Type} [DecidableEq K] (rows : List α) (key : α → K)
    (f : α → Fl) : List ZVal :=
  rows.map (fun r =>
    let g := (rows.filter (fun s => decide (key s = key r))).map f
    zOneDecline (f r) (Fl.listMean g) (Fl.listVar g))

/-!  The player-season record as consumed by advanced_stats.py.  Only the
columns read by the embedded formulas are retained. -/

structure Row where
  player_id : String
  season : Int
  position : String
  games : Fl
  carries : Fl
  targets : Fl
  rushing_yards : Fl
  receiving_yards : Fl
  receiving_air_yards : Fl
  team_attempts : Fl
  rush_yac_att : Fl
  target_share : Fl
  fantasy_points_half_ppr : Fl
  fantasy_points_per_game : Fl
  season_age : Fl
deriving DecidableEq

/-- advanced_stats.py lines 10-14 and 396-400:
`np.where(position == 'RB', rushing_yards / carries.replace(0, 1),
receiving_yards / targets.replace(0, 1))`. -/
def rawPerTouchYards (r : Row) : Fl :=
  if r.position == "RB" then r.rushing_yards.div r.carries.replaceZeroWithOne
  else r.receiving_yards.div r.targets.replaceZeroWithOne

/-- advanced_stats.py lines 268-272:
`np.where(team_attempts > 0, receiving_air_yards.fillna(0) / team_attempts, 0)`. -/
def airYardsShare (r : Row) : Fl :=
  if r.team_attempts.bgt (Fl.val 0) then
    (r.receiving_air_yards.fillna 0).div r.team_attempts
  else Fl.val 0

/-- advanced_stats.py lines 293-297 (the surviving, second definition of
`yptmpa`): `np.where(team_attempts > 0, receiving_yards.fillna(0) /
team_attempts, 0)`. -/
def yptmpa (r : Row) : Fl :=
  if r.team_attempts.bgt (Fl.val 0) then
    (r.receiving_yards.fillna 0).div r.team_attempts
  else Fl.val 0

/-- advanced_stats.py lines 310-314: `np.where(position == 'RB',
(season_age - 24.5).clip(0), (season_age - 26.5).clip(0))`. -/
def yearsPastApex (r : Row) : Fl :=
  if r.position == "RB" then (r.season_age.sub (Fl.val 24.5)).clipLower 0
  else (r.season_age.sub (Fl.val 26.5)).clipLower 0

/-- advanced_stats.py lines 317-319. -/
def normAgeRisk (rows : List Row) : List ZVal :=
  groupZ rows (fun r => r.position) yearsPastApex

/-- advanced_stats.py line 177: `targets.fillna(0) * 2.8 + carries.fillna(0)`. -/
def weightedTouches (r : Row) : Fl :=
  ((r.targets.fillna 0).mul (Fl.val 2.8)).add (r.carries.fillna 0)

/-- advanced_stats.py lines 225-229. -/
def targetValue (r : Row) : Fl :=
  if r.position == "RB" then
    if (weightedTouches r).bgt (Fl.val 0) then
      r.fantasy_points_half_ppr.div (weightedTouches r)
    else Fl.val 0
  else
    if r.targets.bgt (Fl.val 0) then r.fantasy_points_half_ppr.div r.targets
    else Fl.val 0

/-- advanced_stats.py lines 342-344. -/
def normTargetValue (rows : List Row) : List ZVal :=
  groupZ rows (fun r => r.position) targetValue

/-- advanced_stats.py lines 346-348. -/
def normTargetShare (rows : List Row) : List ZVal :=
  groupZ rows (fun r => r.position) (fun r => r.target_share)

/-- advanced_stats.py lines 353-357: `np.where(position == 'RB',
rush_yac_att.fillna(0), yptmpa.fillna(0))`. -/
def rawEfficiency (r : Row) : Fl :=
  if r.position == "RB" then r.rush_yac_att.fillna 0 else (yptmpa r).fillna 0

/-- advanced_stats.py lines 360-362. -/
def normEfficiency (rows : List Row) : List ZVal :=
  groupZ rows (fun r => r.position) rawEfficiency

/-- advanced_stats.py lines 405-407 (sign-flipped z-score). -/
def normYpaDecline (rows : List Row) : List ZVal :=
  groupZDecline rows (fun r => r.position) rawPerTouchYards

/-- pandas Series.quantile(num/den) with the default linear interpolation,
over the sorted non-NaN entries; exact because the interpolation position
(n-1)*num/den is rational.  NaN on an all-NaN column. -/
def quantileAt (num den : ℕ) (xs : List Fl) : Fl :=
  let vs := xs.filterMap (fun x => match x with | .val a => some a | _ => none)
  let sortedVs := List.insertionSort (fun a b : ℚ => a ≤ b) vs
  let n := sortedVs.length
  if n = 0 then Fl.nan
  else
    let i : ℕ := (num * (n - 1)) / den
    let frac : ℚ := ((num * (n - 1)) % den : ℕ) / (den : ℚ)
    if i + 1 < n then
      Fl.val (sortedVs.getD i 0 + frac * (sortedVs.getD (i + 1) 0 - sortedVs.getD i 0))
    else Fl.val (sortedVs.getD (n - 1) 0)

/-- advanced_stats.py lines 327-329: the per-position 75th percentile of
fantasy_points_per_game attached to each row. -/
def arrivalThreshold (rows : List Row) (r : Row) : Fl :=
  quantileAt 3 4
    ((rows.filter (fun s => decide (s.position = r.position))).map
      (fun s => s.fantasy_points_per_game))

/-- advanced_stats.py lines 381-383: the per-position 60th percentile of
fantasy_points_per_game attached to each row. -/
def valueThreshold (rows : List Row) (r : Row) : Fl :=
  quantileAt 3 5
    ((rows.filter (fun s => decide (s.position = r.position))).map
      (fun s => s.fantasy_points_per_game))

/-!  Trajectory module (advanced_stats.py, add_trajectory_metrics).  -/

/-- The `sort_values(['player_id', 'season'])` key order: lexicographic on
(player_id, season). -/
def rowLe (a b : Row) : Prop :=
  a.player_id < b.player_id ∨ (a.player_id = b.player_id ∧ a.season ≤ b.season)

instance : DecidableRel rowLe := fun a b => by unfold rowLe; infer_instance

/-- A row of add_trajectory_metrics output: the input row plus the four
columns the function appends. -/
structure TrajRow where
  row : Row
  raw_per_touch_yards : Fl
  prev_efficiency : Fl
  efficiency_delta : Fl
  norm_trajectory : ZVal
deriving DecidableEq

/-- Intermediate record before the group z-score is attached. -/
structure TrajPre where
  row : Row
  raw : Fl
  prev : Fl
  delta : Fl
deriving DecidableEq

/-- The `groupby('player_id')['raw_per_touch_yards'].shift(1)` pass over the
sorted table: walk the rows in order keeping, per player id, the last raw
per-touch value seen; `prev` is that value (NaN when the player has no
earlier row) and `delta = raw - prev` (advanced_stats.py lines 18-19). -/
def assignPrev (seen : List (String × Fl)) : List Row → List TrajPre
  | [] => []
  | r :: rs =>
    let raw := rawPerTouchYards r
    let prev := (List.lookup r.player_id seen).getD Fl.nan
    ⟨r, raw, prev, raw.sub prev⟩ :: assignPrev ((r.player_id, raw) :: seen) rs

/-- advanced_stats.py lines 5-27 (add_trajectory_metrics): sort by
(player_id, season), compute raw_per_touch_yards, the per-player shifted
prev_efficiency, efficiency_delta, and the (position, season)-grouped
z-score norm_trajectory. -/
def addTrajectoryMetrics (df : List Row) : List TrajRow :=
  let sortedDf := List.insertionSort rowLe df
  let pre := assignPrev [] sortedDf
  List.zipWith (fun t z => ⟨t.row, t.raw, t.prev, t.delta, z⟩) pre
    (groupZ pre (fun t => (t.row.position, t.row.season)) (fun t => t.delta))

/-!  Composite metric engine: schema gate and tier-4 scores
(advanced_stats.py, calculate_composite_metrics).  -/

/-- advanced_stats.py lines 51-55. -/
def requiredTeamCols : List String :=
  ["team_carries", "team_rushing_yards", "team_rushing_tds",
   "team_receptions", "team_receiving_yards", "team_receiving_tds",
   "team_attempts"]

/-- advanced_stats.py line 57: `[col for col in required_cols if col not in
df.columns]`. -/
def missingTeamCols (cols : List String) : List String :=
  requiredTeamCols.filter (fun c => !cols.contains c)

/-- advanced_stats.py lines 48-59: the games >= 8 row filter followed by the
hard schema validation; raising ValueError is modelled by the error arm,
whose payload is the list of column names interpolated into the message
"Missing required team columns: ...".  The caller's table is untouched in
both arms (the source works on a .copy()). -/
def calcCompositeGate (cols : List String) (rows : List Row) :
    Except (List String) (List Row) :=
  let dff := rows.filter (fun r => r.games.bge (Fl.val 8))
  match missingTeamCols cols with
  | [] => Except.ok dff
  | ms => Except.error ms

/-- advanced_stats.py lines 334-338: `np.where(fantasy_points_per_game <
arrival_threshold, 1.2, 0.7)`. -/
def breakoutMultiplier (fppg thr : Fl) : Fl :=
  if fppg.blt thr then Fl.val 1.2 else Fl.val 0.7

/-- advanced_stats.py line 375: textually the same np.where as
breakout_multiplier, recomputed under a second name. -/
def arrivalMultiplier (fppg thr : Fl) : Fl :=
  if fppg.blt thr then Fl.val 1.2 else Fl.val 0.7

/-- advanced_stats.py lines 365-371, before any multiplier: the five-term
weighted combination.  Arguments are the values of the five input columns
(draft_capital_score, norm_youth_bonus, norm_target_value, norm_efficiency,
norm_target_share) at one row. -/
def breakoutBase (dcs nyb ntv ne nts : Fl) : Fl :=
  ((((dcs.mul (Fl.val 0.15)).add (nyb.mul (Fl.val 0.20))).add
      (ntv.mul (Fl.val 0.25))).add (ne.mul (Fl.val 0.25))).add
    (((Fl.val 1).sub (nts.fillna 0)).mul (Fl.val 0.15))

/-- advanced_stats.py lines 365-376: the base combination is multiplied by
breakout_multiplier at line 371 and again by arrival_multiplier at line 376. -/
def breakoutScoreFinal (dcs nyb ntv ne nts fppg thr : Fl) : Fl :=
  (((breakoutBase dcs nyb ntv ne nts).mul (breakoutMultiplier fppg thr)).mul
    (arrivalMultiplier fppg thr))

/-- advanced_stats.py lines 388-392: `np.where(fantasy_points_per_game >=
value_threshold, 1.3, 0.5)`. -/
def marketValueMultiplier (fppg thr : Fl) : Fl :=
  if fppg.bge thr then Fl.val 1.3 else Fl.val 0.5

/-- advanced_stats.py lines 410-415: sell_high_score.  Arguments are the
four input columns (norm_age_risk, norm_target_share, norm_efficiency,
norm_trajectory) and the market_value_multiplier at one row. -/
def sellHighScore (nar nts ne ntr mvm : Fl) : Fl :=
  ((((nar.mul (Fl.val 0.20)).add (nts.mul (Fl.val 0.25))).add
      (ne.mul (Fl.val (-0.30)))).add (ntr.mul (Fl.val (-0.25)))).mul mvm

/-- advanced_stats.py lines 419-422: `receiving_air_yards.fillna(0) -
receiving_yards.fillna(0)`. -/
def airYardsDifferential (r : Row) : Fl :=
  (r.receiving_air_yards.fillna 0).sub (r.receiving_yards.fillna 0)

/-- advanced_stats.py lines 425-431: buy_low_score.  Arguments are the
input columns (air_yards_differential, norm_youth_bonus, target_share,
draft_capital_score, fantasy_points_per_game) at one row. -/
def buyLowScore (ayd nyb ts dcs fppg : Fl) : Fl :=
  (((((ayd.div (Fl.val 100)).clip 0 5).mul (Fl.val 0.30)).add
        (nyb.mul (Fl.val 0.20))).add
      (((ts.fillna 0).mul (Fl.val 10)).mul (Fl.val 0.25))).add
    ((dcs.mul (Fl.val 0.15)).add
      ((((Fl.val 1).div (fppg.add (Fl.val 0.1))).clip 0 2).mul (Fl.val 0.10)))

/-- The documented weight vector of breakout_score. -/
def breakoutWeights : List ℚ := [0.15, 0.20, 0.25, 0.25, 0.15]

/-- The documented weight vector of sell_high_score. -/
def sellHighWeights : List ℚ := [0.20, 0.25, -0.30, -0.25]

/-- The documented weight vector of buy_low_score. -/
def buyLowWeights : List ℚ := [0.30, 0.20, 0.25, 0.15, 0.10]

/-!  Segmentation module (internal_rankings.py, get_dynasty_candidates).
The input already carries the composite score columns computed upstream. -/

structure CRow where
  position : String
  games : Fl
  targets : Fl
  carries : Fl
  season_age : Fl
  air_yards_differential : Fl
  breakout_score : Fl
  sell_high_score : Fl
  buy_low_score : Fl
deriving DecidableEq

/-- internal_rankings.py lines 291-349 (get_dynasty_candidates).  The sort
descends on the category's score column; pandas sort_values is embedded as a
comparison sort on that key (the source's default quicksort specifies no tie
order, see the development notes on stability). -/
def getDynastyCandidates (df : List CRow) (candidateType : String)
    (minGames : ℚ) (topN : ℕ) : List CRow :=
  let dff := df.filter (fun r => r.games.bge (Fl.val minGames))
  if candidateType = "breakout" then
    let d1 := dff.filter (fun r => !(r.position == "QB"))
    let d2 := d1.filter (fun r =>
      ((r.position == "WR" || r.position == "TE") && r.targets.bge (Fl.val 25)) ||
      (r.position == "RB" && r.carries.bge (Fl.val 40)))
    let d3 := d2.filter (fun r => r.season_age.ble (Fl.val 25))
    (List.insertionSort
      (fun a b => b.breakout_score.ble a.breakout_score = true) d3).take topN
  else if candidateType = "sell_high" then
    let d1 := dff.filter (fun r =>
      (r.position == "RB" && r.season_age.bge (Fl.val 26)) ||
      ((r.position == "WR" || r.position == "TE") && r.season_age.bge (Fl.val 28)))
    let d2 := d1.filter (fun r =>
      ((r.position == "WR" || r.position == "TE") && r.targets.bge (Fl.val 60)) ||
      (r.position == "RB" && r.carries.bge (Fl.val 80)))
    let d3 := d2.filter (fun r => !(r.position == "QB"))
    (List.insertionSort
      (fun a b => b.sell_high_score.ble a.sell_high_score = true) d3).take topN
  else if candidateType = "buy_low" then
    let d1 := dff.filter (fun r => r.air_yards_differential.bgt (Fl.val 0))
    (List.insertionSort
      (fun a b => b.buy_low_score.ble a.buy_low_score = true) d1).take topN
  else []

/-!  Source normalizer for advanced-charting sources
(nfl_info.py, get_pfr_advstats_combined lines 99-103).  -/

/-- One raw row of a PFR advanced-stats category table.  `team` is Option
because the raw column can be missing (NaN); `str.contains('TM', na=False)`
treats that as False. -/
structure PfrRaw where
  pfr_id : String
  season : Int
  team : Option String
  stat : Fl
deriving DecidableEq

/-- Does the character list contain the substring "TM" starting here? -/
def startsWithTM : List Char → Bool
  | 'T' :: 'M' :: _ => true
  | _ => false

/-- Does the character list contain "TM" anywhere? -/
def containsTM : List Char → Bool
  | [] => false
  | c :: rest => startsWithTM (c :: rest) || containsTM rest

/-- nfl_info.py line 101: `team.astype(str).str.contains('TM', na=False)`. -/
def isTotalRow (r : PfrRaw) : Bool :=
  match r.team with
  | some t => containsTM t.data
  | none => false

/-- nfl_info.py lines 102-103: keep a row iff its (pfr_id, season) group has
a combined "TM" row and this row is one, or the group has none at all. -/
def normalizeTMRows (rows : List PfrRaw) : List PfrRaw :=
  rows.filter (fun r =>
    let hasTotal :=
      (rows.filter (fun t => t.pfr_id == r.pfr_id && t.season == r.season)).any
        isTotalRow
    (hasTotal && isTotalRow r) || !hasTotal)

/-- The (pfr_id, season) group of a charting table, for stating the
per-group property. -/
def pfrGroup (rows : List PfrRaw) (p : String) (s : Int) : List PfrRaw :=
  rows.filter (fun t => t.pfr_id == p && t.season == s)

/-!  Fusion engine (nfl_info.py, construct_intelligent_dataset lines
190-234).  The six upstream loaders are external network calls, so the
constructor is embedded as a function of the tables they return.  Each
right-hand table keeps its join keys plus one representative payload
column. -/

structure SRow where
  player_id : String
  season : Int
  position : String
  recent_team : String
  games : Fl
deriving DecidableEq

structure TeamRow where
  recent_team : String
  season : Int
  team_attempts : Fl
deriving DecidableEq

structure PfrJRow where
  player_id : String
  season : Int
  rec_adot : Fl
deriving DecidableEq

structure FtnRow where
  player_id : String
  season : Int
  is_catchable_ball : Fl
deriving DecidableEq

structure DraftRow where
  player_id : String
  draft_round : Fl
deriving DecidableEq

structure RosterRow where
  player_id : String
  season : Int
  birth : Option (Int × Int)
  years_exp : Fl
deriving DecidableEq

structure ContractRow where
  player_id : String
  season : Int
  apy : Fl
deriving DecidableEq

/-- The wide fused record; payload columns start as NaN (the null fill of a
left join with no match) and birth as none. -/
structure FusedRow where
  player_id : String
  season : Int
  position : String
  recent_team : String
  games : Fl
  team_attempts : Fl
  rec_adot : Fl
  is_catchable_ball : Fl
  draft_round : Fl
  birth : Option (Int × Int)
  years_exp : Fl
  apy : Fl
  season_age : Fl
deriving DecidableEq

/-- pandas `L.merge(R, how='left')`: every left row is kept in order; it is
replicated once per matching right row, or emitted once null-filled when no
right row matches. -/
def leftMerge {α β γ : Type} (L : List α) (R : List β) (keyMatch : α → β → Bool)
    (combine : α → β → γ) (noMatch : α → γ) : List γ :=
  L.flatMap (fun a =>
    match R.filter (keyMatch a) with
    | [] => [noMatch a]
    | ms => ms.map (combine a))

/-- nfl_info.py lines 227-229: season minus birth year, minus one more when
the birth month is after September; NaN when the birth date is missing. -/
def seasonAge (season : Int) (birth : Option (Int × Int)) : Fl :=
  match birth with
  | none => Fl.nan
  | some (y, m) => Fl.val ((season - y - (if m > 9 then 1 else 0) : Int) : ℚ)

/-- Kernel-reducible lexicographic comparison on character lists (by code
point, as pandas compares strings). -/
def charListLt : List Char → List Char → Bool
  | [], [] => false
  | [], _ :: _ => true
  | _ :: _, [] => false
  | a :: as, b :: bs =>
    if a.val < b.val then true
    else if b.val < a.val then false
    else charListLt as bs

def strLtB (a b : String) : Bool := charListLt a.data b.data

/-- The final `sort_values(['player_id', 'season'])` key order on fused
rows. -/
def fusedLe (a b : FusedRow) : Prop :=
  (strLtB a.player_id b.player_id ||
    (a.player_id == b.player_id && decide (a.season ≤ b.season))) = true

instance : DecidableRel fusedLe := fun a b => by unfold fusedLe; infer_instance

def initFused (r : SRow) : FusedRow :=
  ⟨r.player_id, r.season, r.position, r.recent_team, r.games,
   Fl.nan, Fl.nan, Fl.nan, Fl.nan, none, Fl.nan, Fl.nan, Fl.nan⟩

/-- nfl_info.py lines 190-234 (construct_intelligent_dataset): the position
filter on base stats, the ordered left joins (team aggregates by
team+season, PFR by player+season, FTN by player+season, draft by player
only, roster by player+season, contracts by player+season), the season_age
computation, and the final sort by (player_id, season).  The function
returns the fused table directly: the source has no post-fusion uniqueness
check of (player_id, season) and raises no error on duplicates. -/
def constructIntelligentDataset (stats : List SRow) (team : List TeamRow)
    (pfr : List PfrJRow) (ftn : List FtnRow) (draft : List DraftRow)
    (roster : List RosterRow) (contracts : List ContractRow)
    (positions : List String) : List FusedRow :=
  let base := stats.filter (fun r => positions.contains r.position)
  let f0 := base.map initFused
  let f1 := leftMerge f0 team
    (fun a b => a.recent_team == b.recent_team && a.season == b.season)
    (fun a b => { a with team_attempts := b.team_attempts }) id
  let f2 := leftMerge f1 pfr
    (fun a b => a.player_id == b.player_id && a.season == b.season)
    (fun a b => { a with rec_adot := b.rec_adot }) id
  let f3 := leftMerge f2 ftn
    (fun a b => a.player_id == b.player_id && a.season == b.season)
    (fun a b => { a with is_catchable_ball := b.is_catchable_ball }) id
  let f4 := leftMerge f3 draft
    (fun a b => a.player_id == b.player_id)
    (fun a b => { a with draft_round := b.draft_round }) id
  let f5 := leftMerge f4 roster
    (fun a b => a.player_id == b.player_id && a.season == b.season)
    (fun a b => { a with birth := b.birth, years_exp := b.years_exp }) id
  let f6 := leftMerge f5 contracts
    (fun a b => a.player_id == b.player_id && a.season == b.season)
    (fun a b => { a with apy := b.apy }) id
  let f7 := f6.map (fun a => { a with season_age := seasonAge a.season a.birth })
  List.insertionSort fusedLe f7

/-- Number of rows carrying a given (player_id, season) key. -/
def countKey (p : String) (s : Int) (l : List FusedRow) : ℕ :=
  l.countP (fun r => r.player_id == p && r.season == s)

/-!  Concrete sample inputs used by witnesses and counterexamples.  -/

/-- A row whose numeric columns are all missing (NaN), to be specialised. -/
def baseRow : Row :=
  ⟨"p", 0, "WR", Fl.nan, Fl.nan, Fl.nan, Fl.nan, Fl.nan, Fl.nan, Fl.nan,
   Fl.nan, Fl.nan, Fl.nan, Fl.nan, Fl.nan⟩

/-- An RB row with zero carries but nonzero rushing yards. -/
def rowZeroCarries : Row :=
  { baseRow with position := "RB", carries := Fl.val 0, rushing_yards := Fl.val 5 }

/-- A WR row on a team with zero recorded pass attempts. -/
def rowZeroTeamAtt : Row :=
  { baseRow with
      team_attempts := Fl.val 0
      receiving_air_yards := Fl.val 3
      receiving_yards := Fl.val 7 }

/-- Two WR rows with identical target_share: a zero-variance position group. -/
def wrShare1 : Row := { baseRow with player_id := "w1", target_share := Fl.val 1 }

def wrShare2 : Row := { baseRow with player_id := "w2", target_share := Fl.val 1 }

def rowsOneWR : List Row := [wrShare1]

def rowsTwoWR : List Row := [wrShare1, wrShare2]

/-- A single player-season row with missing numeric stats. -/
def rowSolo : Row := { baseRow with player_id := "P", season := 1, position := "RB" }

def dfSolo : List Row := [rowSolo]

/-- The trajectory output row for `rowSolo`. -/
def trajSolo : TrajRow := ⟨rowSolo, Fl.nan, Fl.nan, Fl.nan, ZVal.nan⟩

/-- A 24-year-old WR with 30 targets and 10 games. -/
def wr30 : CRow :=
  ⟨"WR", Fl.val 10, Fl.val 30, Fl.nan, Fl.val 24, Fl.val 0, Fl.val 0,
   Fl.val 0, Fl.val 0⟩

/-- A 24-year-old WR with only 20 targets and 10 games. -/
def wr20 : CRow :=
  ⟨"WR", Fl.val 10, Fl.val 20, Fl.nan, Fl.val 24, Fl.val 0, Fl.val 0,
   Fl.val 0, Fl.val 0⟩

/-- A base-stats table holding the same (player_id, season) twice. -/
def dupStats : List SRow :=
  [⟨"p1", 2024, "RB", "KC", Fl.nan⟩, ⟨"p1", 2024, "RB", "KC", Fl.nan⟩]

/-!  Small facts about Fl arithmetic.  -/

theorem fl_div_val_one (x : Fl) : x.div (Fl.val 1) = x := by
  cases x <;> simp [Fl.div]

theorem fl_sub_nan (x : Fl) : x.sub Fl.nan = Fl.nan := by
  cases x <;> rfl

theorem fl_mul_val_val_assoc (x : Fl) (a b : ℚ) (ha : 0 < a) (hb : 0 < b) :
    (x.mul (Fl.val a)).mul (Fl.val b) = x.mul (Fl.val (a * b)) := by
  have hab : 0 < a * b := mul_pos ha hb
  cases x <;> simp [Fl.mul, ha, hb, hab, ha.ne', hb.ne', hab.ne', mul_assoc]

/-- Claim C10: calculate_composite_metrics assigns arrival_multiplier the
same value as breakout_multiplier (1.2 exactly when fantasy_points_per_game
is strictly below the arrival_threshold, else 0.7), and the returned
breakout_score is the five-term weighted combination multiplied by that
multiplier twice, i.e. by its square: the effective gate is 1.44 or 0.49. -/
theorem c10_breakout_multiplier_squared (dcs nyb ntv ne nts fppg thr : Fl) :
    arrivalMultiplier fppg thr = breakoutMultiplier fppg thr ∧
    breakoutScoreFinal dcs nyb ntv ne nts fppg thr
      = (breakoutBase dcs nyb ntv ne nts).mul
          ((breakoutMultiplier fppg thr).mul (breakoutMultiplier fppg thr)) ∧
    ((fppg.blt thr = true ∧ breakoutMultiplier fppg thr = Fl.val 1.2 ∧
        (breakoutMultiplier fppg thr).mul (breakoutMultiplier fppg thr)
          = Fl.val 1.44) ∨
      (fppg.blt thr = false ∧ breakoutMultiplier fppg thr = Fl.val 0.7 ∧
        (breakoutMultiplier fppg thr).mul (breakoutMultiplier fppg thr)
          = Fl.val 0.49)) := by
  by_cases h : fppg.blt thr = true
  · refine ⟨rfl, ?_, Or.inl ⟨h, ?_, ?_⟩⟩
    · show (((breakoutBase dcs nyb ntv ne nts).mul (breakoutMultiplier fppg thr)).mul
          (arrivalMultiplier fppg thr)) = _
      simp only [breakoutMultiplier, arrivalMultiplier, h, if_true]
      have hm : (Fl.val (1.2 : ℚ)).mul (Fl.val 1.2) = Fl.val (1.2 * 1.2) := rfl
      rw [fl_mul_val_val_assoc _ _ _ (by norm_num) (by norm_num), hm]
    · simp [breakoutMultiplier, h]
    · simp only [breakoutMultiplier, h, if_true, Fl.mul]
      norm_num
  · have hb : fppg.blt thr = false := by simpa using h
    refine ⟨rfl, ?_, Or.inr ⟨hb, ?_, ?_⟩⟩
    · show (((breakoutBase dcs nyb ntv ne nts).mul (breakoutMultiplier fppg thr)).mul
          (arrivalMultiplier fppg thr)) = _
      simp only [breakoutMultiplier, arrivalMultiplier, hb, Bool.false_eq_true,
        if_false]
      have hm : (Fl.val (0.7 : ℚ)).mul (Fl.val 0.7) = Fl.val (0.7 * 0.7) := rfl
      rw [fl_mul_val_val_assoc _ _ _ (by norm_num) (by norm_num), hm]
    · simp [breakoutMultiplier, hb]
    · simp only [breakoutMultiplier, hb, Bool.false_eq_true, if_false, Fl.mul]
      norm_num

/-- Claim C4, counterexample: the sell_high_score weight vector
(0.20, 0.25, -0.30, -0.25) sums to -0.10, not 1.0. -/
theorem c4_counterexample : sellHighWeights.sum ≠ 1 := by
  norm_num [sellHighWeights]

/-- Claim C4 (amended): each tier-4 composite score is the stated
fixed-weight linear combination of its inputs, and the breakout and buy_low
weight vectors sum to 1.0, but the sell_high weight vector sums to -0.10
(not 1.0). -/
theorem c4_amended :
    breakoutWeights.sum = 1 ∧ buyLowWeights.sum = 1 ∧
    sellHighWeights.sum = -(1/10) ∧
    (∀ d y tv e ts : ℚ,
      breakoutBase (Fl.val d) (Fl.val y) (Fl.val tv) (Fl.val e) (Fl.val ts)
        = Fl.val (d * (15/100) + y * (20/100) + tv * (25/100) + e * (25/100) +
            (1 - ts) * (15/100))) ∧
    (∀ a ts e tr m : ℚ,
      sellHighScore (Fl.val a) (Fl.val ts) (Fl.val e) (Fl.val tr) (Fl.val m)
        = Fl.val ((a * (20/100) + ts * (25/100) + e * (-(30/100)) +
            tr * (-(25/100))) * m)) ∧
    (∀ ayd y ts d f : ℚ, f + 1/10 ≠ 0 →
      buyLowScore (Fl.val ayd) (Fl.val y) (Fl.val ts) (Fl.val d) (Fl.val f)
        = Fl.val (min (max (ayd / 100) 0) 5 * (30/100) + y * (20/100) +
            ts * 10 * (25/100) + d * (15/100) +
            min (max (1 / (f + 1/10)) 0) 2 * (10/100))) := by
  refine ⟨by norm_num [breakoutWeights], by norm_num [buyLowWeights],
    by norm_num [sellHighWeights], ?_, ?_, ?_⟩
  · intro d y tv e ts
    simp only [breakoutBase, Fl.mul, Fl.add, Fl.sub, Fl.neg, Fl.fillna, Fl.isNan]
    norm_num [sub_eq_add_neg]
  · intro a ts e tr m
    simp only [sellHighScore, Fl.mul, Fl.add, Fl.sub, Fl.neg]
    norm_num
  · intro ayd y ts d f hf
    have h100 : ((100 : ℚ) = 0) = False := by norm_num
    have hfiv : ((f + 0.1 : ℚ) = 0) = False := by
      rw [show (0.1 : ℚ) = 1/10 by norm_num]
      simpa using hf
    simp only [buyLowScore, Fl.fillna, Fl.isNan, Fl.add, Fl.div, h100, hfiv,
      if_false, Fl.clip, Fl.mul]
    norm_num
    ring

/-- Claim C4 witness: the buy_low formula conjunct applied at a concrete
input with nonzero shifted fantasy points. -/
theorem c4_witness :
    buyLowScore (Fl.val 100) (Fl.val 0) (Fl.val 0) (Fl.val 0) (Fl.val 1)
      = Fl.val (min (max ((100 : ℚ) / 100) 0) 5 * (30/100) + 0 * (20/100) +
          0 * 10 * (25/100) + 0 * (15/100) +
          min (max (1 / ((1 : ℚ) + 1/10)) 0) 2 * (10/100)) :=
  c4_amended.2.2.2.2.2 100 0 0 0 1 (by norm_num)

/-- Claim C2, counterexample: an RB row with 0 carries and 5 rushing yards
has raw_per_touch_yards = 5 (the numerator survives, the denominator is
replaced by 1), not 0 as the claim states. -/
theorem c2_counterexample :
    rawPerTouchYards rowZeroCarries = Fl.val 5 ∧
    rawPerTouchYards rowZeroCarries ≠ Fl.val 0 := by
  constructor
  · simp [rawPerTouchYards, rowZeroCarries, baseRow, Fl.replaceZeroWithOne,
      Fl.div]
  · intro h
    have h5 : rawPerTouchYards rowZeroCarries = Fl.val 5 := by
      simp [rawPerTouchYards, rowZeroCarries, baseRow, Fl.replaceZeroWithOne,
        Fl.div]
    rw [h5] at h
    simp at h

/-- Claim C2 (amended): air_yards_share and yptmpa are exactly 0 whenever
team_attempts is 0, and are always finite numbers (never NaN, never an
infinity, never a division fault) for non-infinite inputs; but
raw_per_touch_yards handles a zero denominator by replacing the divisor
with 1, so it equals the raw numerator (which is 0 only when the numerator
is 0), and it is NaN when its inputs are NaN. -/
theorem c2_amended (r : Row) (hta : r.team_attempts.finOrNan)
    (hray : r.receiving_air_yards.finOrNan) (hry : r.receiving_yards.finOrNan) :
    (∃ q : ℚ, airYardsShare r = Fl.val q) ∧
    (∃ q : ℚ, yptmpa r = Fl.val q) ∧
    (r.team_attempts = Fl.val 0 →
      airYardsShare r = Fl.val 0 ∧ yptmpa r = Fl.val 0) ∧
    (r.position = "RB" → r.carries = Fl.val 0 →
      rawPerTouchYards r = r.rushing_yards) ∧
    (r.position ≠ "RB" → r.targets = Fl.val 0 →
      rawPerTouchYards r = r.receiving_yards) := by
  obtain ⟨hta1, hta2⟩ := hta
  refine ⟨?_, ?_, ?_, ?_, ?_⟩
  · unfold airYardsShare
    rcases hx : r.team_attempts with _ | _ | _ | t
    · exact ⟨0, by simp [Fl.bgt, Fl.blt]⟩
    · exact absurd hx hta1
    · exact absurd hx hta2
    · by_cases ht : (0 : ℚ) < t
      · obtain ⟨hr1, hr2⟩ := hray
        rcases hy : r.receiving_air_yards with _ | _ | _ | a
        · exact ⟨0 / t, by simp [Fl.bgt, Fl.blt, ht, Fl.fillna, Fl.isNan,
            Fl.div, ht.ne']⟩
        · exact absurd hy hr1
        · exact absurd hy hr2
        · exact ⟨a / t, by simp [Fl.bgt, Fl.blt, ht, Fl.fillna, Fl.isNan,
            Fl.div, ht.ne']⟩
      · exact ⟨0, by simp [Fl.bgt, Fl.blt, ht]⟩
  · unfold yptmpa
    rcases hx : r.team_attempts with _ | _ | _ | t
    · exact ⟨0, by simp [Fl.bgt, Fl.blt]⟩
    · exact absurd hx hta1
    · exact absurd hx hta2
    · by_cases ht : (0 : ℚ) < t
      · obtain ⟨hr1, hr2⟩ := hry
        rcases hy : r.receiving_yards with _ | _ | _ | a
        · exact ⟨0 / t, by simp [Fl.bgt, Fl.blt, ht, Fl.fillna, Fl.isNan,
            Fl.div, ht.ne']⟩
        · exact absurd hy hr1
        · exact absurd hy hr2
        · exact ⟨a / t, by simp [Fl.bgt, Fl.blt, ht, Fl.fillna, Fl.isNan,
            Fl.div, ht.ne']⟩
      · exact ⟨0, by simp [Fl.bgt, Fl.blt, ht]⟩
  · intro h0
    constructor
    · simp [airYardsShare, h0, Fl.bgt, Fl.blt]
    · simp [yptmpa, h0, Fl.bgt, Fl.blt]
  · intro hpos hc
    have hb : (r.position == "RB") = true := by simp [hpos]
    simp only [rawPerTouchYards, hb, if_true, hc, Fl.replaceZeroWithOne,
      if_pos rfl]
    exact fl_div_val_one _
  · intro hpos hc
    have hb : (r.position == "RB") = false := by simp [hpos]
    simp only [rawPerTouchYards, hb, Bool.false_eq_true, if_false, hc,
      Fl.replaceZeroWithOne, if_pos rfl]
    exact fl_div_val_one _

/-- Claim C2 witness: the amended statement applied to a WR row whose team
recorded zero pass attempts. -/
theorem c2_witness :
    (∃ q : ℚ, airYardsShare rowZeroTeamAtt = Fl.val q) ∧
    (∃ q : ℚ, yptmpa rowZeroTeamAtt = Fl.val q) ∧
    (rowZeroTeamAtt.team_attempts = Fl.val 0 →
      airYardsShare rowZeroTeamAtt = Fl.val 0 ∧ yptmpa rowZeroTeamAtt = Fl.val 0) ∧
    (rowZeroTeamAtt.position = "RB" → rowZeroTeamAtt.carries = Fl.val 0 →
      rawPerTouchYards rowZeroTeamAtt = rowZeroTeamAtt.rushing_yards) ∧
    (rowZeroTeamAtt.position ≠ "RB" → rowZeroTeamAtt.targets = Fl.val 0 →
      rawPerTouchYards rowZeroTeamAtt = rowZeroTeamAtt.receiving_yards) :=
  c2_amended rowZeroTeamAtt (by decide) (by decide) (by decide)

/-- Claim C3: with any required team-aggregate column absent, the composite
metric engine fails with an error naming exactly the missing columns and
produces no output table (the caller's input, being a pure value, is
untouched); with all seven present it does not raise on their account. -/
theorem c3_schema_gate (cols : List String) (rows : List Row) :
    ((∃ c ∈ requiredTeamCols, c ∉ cols) →
      calcCompositeGate cols rows = Except.error (missingTeamCols cols) ∧
      missingTeamCols cols ≠ [] ∧
      (∀ c, c ∈ missingTeamCols cols ↔ (c ∈ requiredTeamCols ∧ c ∉ cols))) ∧
    ((∀ c ∈ requiredTeamCols, c ∈ cols) →
      calcCompositeGate cols rows
        = Except.ok (rows.filter (fun r => r.games.bge (Fl.val 8)))) := by
  constructor
  · rintro ⟨c, hc, hnc⟩
    have hmem : c ∈ missingTeamCols cols := by
      unfold missingTeamCols
      rw [List.mem_filter]
      exact ⟨hc, by simpa using hnc⟩
    have hne : missingTeamCols cols ≠ [] := by
      intro h
      rw [h] at hmem
      exact absurd hmem (List.not_mem_nil c)
    refine ⟨?_, hne, ?_⟩
    · unfold calcCompositeGate
      rcases hms : missingTeamCols cols with _ | ⟨m, ms⟩
      · exact absurd hms hne
      · simp
    · intro d
      unfold missingTeamCols
      rw [List.mem_filter]
      constructor
      · rintro ⟨h1, h2⟩
        exact ⟨h1, by simpa using h2⟩
      · rintro ⟨h1, h2⟩
        exact ⟨h1, by simpa using h2⟩
  · intro hall
    have hms : missingTeamCols cols = [] := by
      unfold missingTeamCols
      rw [List.filter_eq_nil_iff]
      intro c hc
      simpa using hall c hc
    unfold calcCompositeGate
    rw [hms]

/-- Claim C3 witness: the gate applied to a schema missing team_attempts
(error naming it) and to the full schema (success). -/
theorem c3_witness :
    (calcCompositeGate ["team_carries", "team_rushing_yards",
        "team_rushing_tds", "team_receptions", "team_receiving_yards",
        "team_receiving_tds"] []
      = Except.error (missingTeamCols ["team_carries", "team_rushing_yards",
          "team_rushing_tds", "team_receptions", "team_receiving_yards",
          "team_receiving_tds"])) ∧
    calcCompositeGate requiredTeamCols []
      = Except.ok (List.filter (fun r => r.games.bge (Fl.val 8)) []) :=
  ⟨(c3_schema_gate _ [] |>.1 (by decide)).1,
   c3_schema_gate requiredTeamCols [] |>.2 (by decide)⟩

/-- Claim C7: every row returned by get_dynasty_candidates for the breakout
category satisfies the games floor, is not a QB, meets the positional volume
floor (25+ targets for WR/TE, 40+ carries for RB) and is at most 25 years
old; moreover a 24-year-old WR with 30 targets passes the filter while one
with 20 targets does not. -/
theorem c7_breakout_filter :
    (∀ (df : List CRow) (mg : ℚ) (n : ℕ) (r : CRow),
      r ∈ getDynastyCandidates df "breakout" mg n →
        r.games.bge (Fl.val mg) = true ∧ r.position ≠ "QB" ∧
        (((r.position = "WR" ∨ r.position = "TE") ∧
            r.targets.bge (Fl.val 25) = true) ∨
          (r.position = "RB" ∧ r.carries.bge (Fl.val 40) = true)) ∧
        r.season_age.ble (Fl.val 25) = true) ∧
    wr30 ∈ getDynastyCandidates [wr30] "breakout" 8 30 ∧
    wr20 ∉ getDynastyCandidates [wr20] "breakout" 8 30 := by
  refine ⟨?_, by decide, by decide⟩
  intro df mg n r hr
  replace hr : r ∈ (List.insertionSort
      (fun a b => b.breakout_score.ble a.breakout_score = true)
      ((((df.filter (fun s => s.games.bge (Fl.val mg))).filter
          (fun s => !(s.position == "QB"))).filter (fun s =>
        ((s.position == "WR" || s.position == "TE") &&
            s.targets.bge (Fl.val 25)) ||
          (s.position == "RB" && s.carries.bge (Fl.val 40)))).filter
        (fun s => s.season_age.ble (Fl.val 25)))).take n := hr
  have h3 := (List.perm_insertionSort _ _).mem_iff.mp (List.mem_of_mem_take hr)
  rw [List.mem_filter] at h3
  obtain ⟨h2, hage⟩ := h3
  rw [List.mem_filter] at h2
  obtain ⟨h1, hvol⟩ := h2
  rw [List.mem_filter] at h1
  obtain ⟨h0, hqb⟩ := h1
  rw [List.mem_filter] at h0
  obtain ⟨-, hgames⟩ := h0
  simp only [Bool.or_eq_true, Bool.and_eq_true, beq_iff_eq] at hvol
  refine ⟨hgames, ?_, ?_, hage⟩
  · simpa using hqb
  · rcases hvol with ⟨hwrte, ht⟩ | ⟨hrb, hc⟩
    · exact Or.inl ⟨hwrte, ht⟩
    · exact Or.inr ⟨hrb, hc⟩

/-- Claim C7 witness: the filter-soundness conjunct applied to the returned
row of a one-row breakout query. -/
theorem c7_witness :
    wr30.games.bge (Fl.val 8) = true ∧ wr30.position ≠ "QB" ∧
    (((wr30.position = "WR" ∨ wr30.position = "TE") ∧
        wr30.targets.bge (Fl.val 25) = true) ∨
      (wr30.position = "RB" ∧ wr30.carries.bge (Fl.val 40) = true)) ∧
    wr30.season_age.ble (Fl.val 25) = true :=
  c7_breakout_filter.1 [wr30] 8 30 wr30 (by decide)

/-- Claim C6: within one advanced-charting category, normalization acts on
each (pfr_id, season) group independently: when the group has a combined
"TM" row, exactly the "TM" rows of the group survive; otherwise the group
passes through unchanged. -/
theorem c6_tm_collapse (rows : List PfrRaw) (p : String) (s : Int) :
    (normalizeTMRows rows).filter (fun t => t.pfr_id == p && t.season == s)
      = if (pfrGroup rows p s).any isTotalRow then
          (pfrGroup rows p s).filter isTotalRow
        else pfrGroup rows p s := by
  unfold normalizeTMRows pfrGroup
  rw [List.filter_filter]
  have hcongr : ∀ t ∈ rows,
      ((t.pfr_id == p && t.season == s) &&
        (((rows.filter
            (fun u => u.pfr_id == t.pfr_id && u.season == t.season)).any
              isTotalRow && isTotalRow t) ||
          !(rows.filter
            (fun u => u.pfr_id == t.pfr_id && u.season == t.season)).any
              isTotalRow))
      = ((t.pfr_id == p && t.season == s) &&
        (((rows.filter (fun u => u.pfr_id == p && u.season == s)).any
            isTotalRow && isTotalRow t) ||
          !(rows.filter (fun u => u.pfr_id == p && u.season == s)).any
            isTotalRow)) := by
    intro t _
    by_cases hk : (t.pfr_id == p && t.season == s) = true
    · rw [Bool.and_eq_true, beq_iff_eq, beq_iff_eq] at hk
      rw [hk.1, hk.2]
    · rw [Bool.eq_false_iff.mpr hk]
      simp
  rw [List.filter_congr hcongr]
  by_cases hA : (rows.filter (fun u => u.pfr_id == p && u.season == s)).any
      isTotalRow = true
  · rw [if_pos hA, List.filter_filter]
    apply List.filter_congr
    intro t _
    rw [hA]
    simp [Bool.and_comm]
  · rw [if_neg hA]
    have hA2 : (rows.filter (fun u => u.pfr_id == p && u.season == s)).any
        isTotalRow = false := by simpa using hA
    apply List.filter_congr
    intro t _
    rw [hA2]
    simp

/-!  Degenerate-group facts about the pandas mean/variance embedding.  -/

theorem fl_listSum_const (c : ℚ) :
    ∀ (g : List Fl), (∀ x ∈ g, x = Fl.val c) →
      Fl.listSum g = Fl.val ((g.length : ℚ) * c) := by
  intro g
  induction g with
  | nil => intro _; simp [Fl.listSum]
  | cons a t ih =>
    intro h
    have ha := h a (List.mem_cons_self a t)
    have ht := ih (fun x hx => h x (List.mem_cons_of_mem a hx))
    show Fl.add a (Fl.listSum t) = _
    rw [ha, ht]
    show Fl.val (c + (t.length : ℚ) * c) = _
    congr 1
    rw [List.length_cons]
    push_cast
    ring

theorem fl_listMean_const (g : List Fl) (c : ℚ)
    (hg : ∀ x ∈ g, x = Fl.val c) (hne : g ≠ []) : Fl.listMean g = Fl.val c := by
  have hdrop : Fl.dropNan g = g :=
    List.filter_eq_self.mpr (fun x hx => by rw [hg x hx]; rfl)
  unfold Fl.listMean
  rw [hdrop, fl_listSum_const c g hg]
  have hn : (g.length : ℚ) ≠ 0 := by
    have := List.length_pos.mpr hne
    positivity
  simp [Fl.div, hn]

theorem fl_listVar_const (g : List Fl) (c : ℚ)
    (hg : ∀ x ∈ g, x = Fl.val c) (h2 : 2 ≤ g.length) :
    Fl.listVar g = Fl.val 0 := by
  have hne : g ≠ [] := by
    intro h
    rw [h] at h2
    simp at h2
  have hdrop : Fl.dropNan g = g :=
    List.filter_eq_self.mpr (fun x hx => by rw [hg x hx]; rfl)
  have hmean := fl_listMean_const g c hg hne
  have hnot : ¬ g.length ≤ 1 := by omega
  have hmap : ∀ y ∈ g.map (fun x => (x.sub (Fl.listMean g)).mul
      (x.sub (Fl.listMean g))), y = Fl.val 0 := by
    intro y hy
    obtain ⟨x, hx, rfl⟩ := List.mem_map.mp hy
    rw [hg x hx, hmean]
    show ((Fl.val c).sub (Fl.val c)).mul ((Fl.val c).sub (Fl.val c)) = Fl.val 0
    simp [Fl.sub, Fl.neg, Fl.add, Fl.mul]
  have hd : ((g.length - 1 : ℕ) : ℚ) ≠ 0 := by
    have : 1 ≤ g.length - 1 := by omega
    positivity
  show (if (Fl.dropNan g).length ≤ 1 then Fl.nan else _) = Fl.val 0
  rw [hdrop, if_neg hnot, fl_listSum_const 0 _ (by simpa using hmap)]
  simp [Fl.div, hd]

theorem zOne_var_nan (x m : Fl) : zOne x m Fl.nan = ZVal.nan := by
  cases x <;> cases m <;> rfl

/-- Claim C1, counterexample: a z-scored field over a size-1 group is NaN,
not 0 — pandas std of a single value is NaN, the guard `std != 0` is True
for NaN, so the divisor is NaN.  Shown on norm_target_share for a one-row
table. -/
theorem c1_counterexample :
    normTargetShare rowsOneWR = [ZVal.nan] ∧ ZVal.nan ≠ ZVal.q 0 := by
  have hfil : List.filter
      (fun s => decide (s.position = wrShare1.position)) [wrShare1]
      = [wrShare1] := by decide
  refine ⟨?_, by decide⟩
  unfold normTargetShare groupZ
  simp only [rowsOneWR, List.map_cons, List.map_nil]
  rw [hfil]
  have hvar : Fl.listVar (List.map (fun r => r.target_share) [wrShare1])
      = Fl.nan := by
    simp [Fl.listVar, Fl.dropNan, Fl.isNan, wrShare1, baseRow]
  rw [hvar, zOne_var_nan]

/-- Claim C1 (amended): for every grouping key and z-scored metric of the
pipeline (all are instances of groupZ / groupZDecline: norm_trajectory by
position and season; norm_age_risk, norm_target_value, norm_target_share,
norm_efficiency, norm_ypa_decline by position), a group whose metric values
all equal one constant and which has at least two rows yields z-score
exactly 0 for every member; but a group of size 1 yields NaN, not 0 (see
the counterexample). -/
theorem c1_amended {α K : Type} [DecidableEq K] (rows : List α) (key : α → K)
    (f : α → Fl) (i : ℕ) (hi : i < rows.length) (c : ℚ)
    (hzlen : i < (groupZ rows key f).length)
    (hdlen : i < (groupZDecline rows key f).length)
    (hall : ∀ s ∈ rows, key s = key (rows.get ⟨i, hi⟩) → f s = Fl.val c)
    (h2 : 2 ≤ (rows.filter
      (fun s => decide (key s = key (rows.get ⟨i, hi⟩)))).length) :
    (groupZ rows key f).get ⟨i, hzlen⟩ = ZVal.q 0 ∧
    (groupZDecline rows key f).get ⟨i, hdlen⟩ = ZVal.q 0 := by
  have hgc : ∀ x ∈ (rows.filter
      (fun s => decide (key s = key (rows.get ⟨i, hi⟩)))).map f, x = Fl.val c := by
    intro x hx
    obtain ⟨s, hs, rfl⟩ := List.mem_map.mp hx
    obtain ⟨hs1, hs2⟩ := List.mem_filter.mp hs
    exact hall s hs1 (of_decide_eq_true hs2)
  have hg2 : 2 ≤ ((rows.filter
      (fun s => decide (key s = key (rows.get ⟨i, hi⟩)))).map f).length := by
    rw [List.length_map]
    exact h2
  have hgne : (rows.filter
      (fun s => decide (key s = key (rows.get ⟨i, hi⟩)))).map f ≠ [] := by
    intro h
    rw [h] at hg2
    simp at hg2
  have hfr : f (rows.get ⟨i, hi⟩) = Fl.val c :=
    hall _ (List.get_mem rows i hi) rfl
  have hmean := fl_listMean_const _ c hgc hgne
  have hvar := fl_listVar_const _ c hgc hg2
  constructor
  · have hget : (groupZ rows key f).get ⟨i, hzlen⟩
        = zOne (f (rows.get ⟨i, hi⟩))
            (Fl.listMean ((rows.filter
              (fun s => decide (key s = key (rows.get ⟨i, hi⟩)))).map f))
            (Fl.listVar ((rows.filter
              (fun s => decide (key s = key (rows.get ⟨i, hi⟩)))).map f)) := by
      simp [groupZ]
    rw [hget, hfr, hmean, hvar]
    simp [zOne]
  · have hget : (groupZDecline rows key f).get ⟨i, hdlen⟩
        = zOneDecline (f (rows.get ⟨i, hi⟩))
            (Fl.listMean ((rows.filter
              (fun s => decide (key s = key (rows.get ⟨i, hi⟩)))).map f))
            (Fl.listVar ((rows.filter
              (fun s => decide (key s = key (rows.get ⟨i, hi⟩)))).map f)) := by
      simp [groupZDecline]
    rw [hget, hfr, hmean, hvar]
    simp [zOneDecline]

/-- Claim C1 witness: a two-row WR group with identical target_share gets
z-score exactly 0 (both in the plain and the sign-flipped transform). -/
theorem c1_witness :
    (groupZ rowsTwoWR (fun r => r.position) (fun r => r.target_share)).get
        ⟨0, by decide⟩ = ZVal.q 0 ∧
    (groupZDecline rowsTwoWR (fun r => r.position)
        (fun r => r.target_share)).get ⟨0, by decide⟩ = ZVal.q 0 :=
  c1_amended rowsTwoWR (fun r => r.position) (fun r => r.target_share) 0
    (by decide) 1 (by decide) (by decide) (by decide) (by decide)

/-!  Trajectory module facts (claim C9).  -/

instance : IsTotal Row rowLe := ⟨by
  intro a b
  rcases lt_trichotomy a.player_id b.player_id with h | h | h
  · exact Or.inl (Or.inl h)
  · rcases le_total a.season b.season with hs | hs
    · exact Or.inl (Or.inr ⟨h, hs⟩)
    · exact Or.inr (Or.inr ⟨h.symm, hs⟩)
  · exact Or.inr (Or.inl h)⟩

instance : IsTrans Row rowLe := ⟨by
  intro a b c hab hbc
  rcases hab with h | ⟨he, hs⟩
  · rcases hbc with h2 | ⟨he2, hs2⟩
    · exact Or.inl (h.trans h2)
    · exact Or.inl (he2 ▸ h)
  · rcases hbc with h2 | ⟨he2, hs2⟩
    · exact Or.inl (he ▸ h2)
    · exact Or.inr ⟨he.trans he2, hs.trans hs2⟩⟩

theorem zipWith_self_map {α β γ : Type} (f : α → γ → β) (g : α → γ) :
    ∀ l : List α, List.zipWith f l (l.map g) = l.map (fun a => f a (g a)) := by
  intro l
  induction l with
  | nil => rfl
  | cons a t ih => simp [ih]

theorem assignPrev_map_row : ∀ (seen : List (String × Fl)) (l : List Row),
    (assignPrev seen l).map (fun t => t.row) = l := by
  intro seen l
  induction l generalizing seen with
  | nil => rfl
  | cons r rs ih => simp [assignPrev, ih]

theorem assignPrev_mem_fields : ∀ (seen : List (String × Fl)) (l : List Row)
    (t : TrajPre), t ∈ assignPrev seen l →
      t.raw = rawPerTouchYards t.row ∧ t.delta = t.raw.sub t.prev := by
  intro seen l
  induction l generalizing seen with
  | nil => intro t ht; simp [assignPrev] at ht
  | cons r rs ih =>
    intro t ht
    rw [assignPrev] at ht
    rcases List.mem_cons.mp ht with h | h
    · subst h
      exact ⟨rfl, rfl⟩
    · exact ih _ t h

theorem assignPrev_prev_shift (p : String) :
    ∀ (l : List Row) (seen : List (String × Fl)),
    ((assignPrev seen l).filter (fun t => t.row.player_id == p)).map
        (fun t => t.prev)
      = (((List.lookup p seen).getD Fl.nan) ::
          ((assignPrev seen l).filter (fun t => t.row.player_id == p)).map
            (fun t => t.raw)).dropLast := by
  intro l
  induction l with
  | nil => intro seen; simp [assignPrev]
  | cons r rs ih =>
    intro seen
    rw [assignPrev]
    by_cases hp : (r.player_id == p) = true
    · have hpe : r.player_id = p := by simpa using hp
      have hsym : (p == r.player_id) = true := by simp [hpe]
      rw [List.filter_cons_of_pos (by simpa using hp)]
      rw [List.map_cons, List.map_cons]
      rw [ih ((r.player_id, rawPerTouchYards r) :: seen)]
      have hlook : List.lookup p ((r.player_id, rawPerTouchYards r) :: seen)
          = some (rawPerTouchYards r) := by
        simp [List.lookup, hsym]
      rw [hlook]
      simp only [Option.getD_some, List.dropLast_cons₂]
      rw [hpe]
    · have hpe : r.player_id ≠ p := by simpa using hp
      have hsym : (p == r.player_id) = false := by
        simp
        exact fun h => hpe h.symm
      rw [List.filter_cons_of_neg (by simpa using hp)]
      rw [ih ((r.player_id, rawPerTouchYards r) :: seen)]
      have hlook : List.lookup p ((r.player_id, rawPerTouchYards r) :: seen)
          = List.lookup p seen := by
        simp [List.lookup, hsym]
      rw [hlook]

theorem zip_traj_map_pe (p : String) : ∀ (l : List TrajPre) (ns : List ZVal),
    ns.length = l.length →
    ((List.zipWith (fun t z =>
        (⟨t.row, t.raw, t.prev, t.delta, z⟩ : TrajRow)) l ns).filter
          (fun t => t.row.player_id == p)).map (fun t => t.prev_efficiency)
      = (l.filter (fun t => t.row.player_id == p)).map (fun t => t.prev) := by
  intro l
  induction l with
  | nil => intro ns h; simp
  | cons a t ih =>
    intro ns h
    cases ns with
    | nil => simp at h
    | cons n ns2 =>
      have h2 : ns2.length = t.length := by simpa using h
      by_cases hp : (a.row.player_id == p) = true
      · simp [List.filter, hp, ih ns2 h2]
      · simp [List.filter, hp, ih ns2 h2]

theorem zip_traj_map_raw (p : String) : ∀ (l : List TrajPre) (ns : List ZVal),
    ns.length = l.length →
    ((List.zipWith (fun t z =>
        (⟨t.row, t.raw, t.prev, t.delta, z⟩ : TrajRow)) l ns).filter
          (fun t => t.row.player_id == p)).map (fun t => t.raw_per_touch_yards)
      = (l.filter (fun t => t.row.player_id == p)).map (fun t => t.raw) := by
  intro l
  induction l with
  | nil => intro ns h; simp
  | cons a t ih =>
    intro ns h
    cases ns with
    | nil => simp at h
    | cons n ns2 =>
      have h2 : ns2.length = t.length := by simpa using h
      by_cases hp : (a.row.player_id == p) = true
      · simp [List.filter, hp, ih ns2 h2]
      · simp [List.filter, hp, ih ns2 h2]

theorem zip_traj_map_row : ∀ (l : List TrajPre) (ns : List ZVal),
    ns.length = l.length →
    (List.zipWith (fun t z =>
        (⟨t.row, t.raw, t.prev, t.delta, z⟩ : TrajRow)) l ns).map
      (fun t => t.row) = l.map (fun t => t.row) := by
  intro l
  induction l with
  | nil => intro ns h; simp
  | cons a t ih =>
    intro ns h
    cases ns with
    | nil => simp at h
    | cons n ns2 =>
      have h2 : ns2.length = t.length := by simpa using h
      simp [ih ns2 h2]

theorem zip_traj_mem : ∀ (l : List TrajPre) (ns : List ZVal)
    (t : TrajRow), t ∈ List.zipWith (fun t z =>
        (⟨t.row, t.raw, t.prev, t.delta, z⟩ : TrajRow)) l ns →
      ∃ t0 ∈ l, t.row = t0.row ∧ t.raw_per_touch_yards = t0.raw ∧
        t.prev_efficiency = t0.prev ∧ t.efficiency_delta = t0.delta := by
  intro l
  induction l with
  | nil => intro ns t ht; simp at ht
  | cons a tl ih =>
    intro ns t ht
    cases ns with
    | nil => simp at ht
    | cons n ns2 =>
      rcases List.mem_cons.mp ht with h | h
      · subst h
        exact ⟨a, List.mem_cons_self a tl, rfl, rfl, rfl, rfl⟩
      · obtain ⟨t0, ht0, hprops⟩ := ih ns2 t h
        exact ⟨t0, List.mem_cons_of_mem a ht0, hprops⟩

/-- Claim C9: add_trajectory_metrics sorts by (player_id, season); within
each player's rows (in season order) prev_efficiency is the previous row's
raw_per_touch_yards, NaN (null) for the player's first row — the shift
never crosses player boundaries; efficiency_delta is raw_per_touch_yards
minus prev_efficiency, hence NaN (null) on every first-season row. -/
theorem c9_trajectory (df : List Row) :
    (∀ p : String,
      ((addTrajectoryMetrics df).filter (fun t => t.row.player_id == p)).map
          (fun t => t.prev_efficiency)
        = (Fl.nan :: ((addTrajectoryMetrics df).filter
            (fun t => t.row.player_id == p)).map
            (fun t => t.raw_per_touch_yards)).dropLast) ∧
    (∀ p : String, List.Pairwise (fun a b => a.row.season ≤ b.row.season)
      ((addTrajectoryMetrics df).filter (fun t => t.row.player_id == p))) ∧
    (∀ t ∈ addTrajectoryMetrics df,
      t.raw_per_touch_yards = rawPerTouchYards t.row ∧
      t.efficiency_delta = t.raw_per_touch_yards.sub t.prev_efficiency) ∧
    (∀ t ∈ addTrajectoryMetrics df,
      t.prev_efficiency = Fl.nan → t.efficiency_delta = Fl.nan) := by
  have hform : addTrajectoryMetrics df
      = List.zipWith (fun t z => (⟨t.row, t.raw, t.prev, t.delta, z⟩ : TrajRow))
          (assignPrev [] (List.insertionSort rowLe df))
          (groupZ (assignPrev [] (List.insertionSort rowLe df))
            (fun t => (t.row.position, t.row.season)) (fun t => t.delta)) := rfl
  have hlen : (groupZ (assignPrev [] (List.insertionSort rowLe df))
      (fun t => (t.row.position, t.row.season)) (fun t => t.delta)).length
      = (assignPrev [] (List.insertionSort rowLe df)).length := by
    simp [groupZ]
  have hfields : ∀ t ∈ addTrajectoryMetrics df,
      t.raw_per_touch_yards = rawPerTouchYards t.row ∧
      t.efficiency_delta = t.raw_per_touch_yards.sub t.prev_efficiency := by
    intro t ht
    rw [hform] at ht
    obtain ⟨t0, ht0, hrow, hraw, hprev, hdelta⟩ := zip_traj_mem _ _ t ht
    obtain ⟨hf1, hf2⟩ := assignPrev_mem_fields [] _ t0 ht0
    refine ⟨?_, ?_⟩
    · rw [hraw, hrow, hf1]
    · rw [hdelta, hraw, hprev, hf2]
  refine ⟨?_, ?_, hfields, ?_⟩
  · intro p
    rw [hform, zip_traj_map_pe p _ _ hlen, zip_traj_map_raw p _ _ hlen]
    simpa using assignPrev_prev_shift p (List.insertionSort rowLe df) []
  · intro p
    have hsorted : List.Pairwise rowLe (List.insertionSort rowLe df) :=
      List.sorted_insertionSort rowLe df
    have hrows : (addTrajectoryMetrics df).map (fun t => t.row)
        = List.insertionSort rowLe df := by
      rw [hform, zip_traj_map_row _ _ hlen, assignPrev_map_row]
    have hout : List.Pairwise (fun a b : TrajRow => rowLe a.row b.row)
        (addTrajectoryMetrics df) := by
      rw [← List.pairwise_map (f := fun t : TrajRow => t.row)]
      rw [hrows]
      exact hsorted
    have hfil := hout.filter (fun t => t.row.player_id == p)
    refine List.Pairwise.imp_of_mem ?_ hfil
    intro a b ha hb hab
    have hpa : a.row.player_id = p := by
      simpa using (List.mem_filter.mp ha).2
    have hpb : b.row.player_id = p := by
      simpa using (List.mem_filter.mp hb).2
    rcases hab with h | ⟨-, hs⟩
    · rw [hpa, hpb] at h
      exact absurd h (lt_irrefl p)
    · exact hs
  · intro t ht hnan
    obtain ⟨-, hdelta⟩ := hfields t ht
    rw [hdelta, hnan, fl_sub_nan]

/-- Claim C9 witness: a one-row table; the player's single (first) season has
prev_efficiency NaN and efficiency_delta NaN. -/
theorem c9_witness :
    ((addTrajectoryMetrics dfSolo).filter
        (fun t => t.row.player_id == "P")).map (fun t => t.prev_efficiency)
      = (Fl.nan :: ((addTrajectoryMetrics dfSolo).filter
          (fun t => t.row.player_id == "P")).map
          (fun t => t.raw_per_touch_yards)).dropLast ∧
    trajSolo.efficiency_delta = Fl.nan :=
  ⟨(c9_trajectory dfSolo).1 "P",
   (c9_trajectory dfSolo).2.2.2 trajSolo (by decide) (by decide)⟩

/-!  Fusion-engine facts (claim C5).  -/

theorem leftMerge_countP {α β γ : Type} (L : List α) (R : List β)
    (m : α → β → Bool) (c : α → β → γ) (d : α → γ) (P : γ → Bool)
    (Q : α → Bool) (h1 : ∀ a b, P (c a b) = Q a) (h2 : ∀ a, P (d a) = Q a) :
    L.countP Q ≤ (leftMerge L R m c d).countP P := by
  induction L with
  | nil => simp [leftMerge]
  | cons a l ih =>
    have hsplit : leftMerge (a :: l) R m c d
        = (match R.filter (m a) with
            | [] => [d a]
            | ms => ms.map (c a)) ++ leftMerge l R m c d := by
      simp [leftMerge]
    rw [hsplit, List.countP_append, List.countP_cons]
    rcases hf : R.filter (m a) with _ | ⟨b, bs⟩
    · have hone : List.countP P [d a] = if Q a then 1 else 0 := by
        rw [List.countP_cons, List.countP_nil, h2 a]
        cases hq : Q a <;> simp
      rw [hone]
      cases hq : Q a <;> simp [hq] <;> omega
    · have hmap : List.countP P ((b :: bs).map (c a))
          = List.countP (fun _ => Q a) (b :: bs) := by
        rw [List.countP_map]
        apply List.countP_congr
        intro x _
        simp [h1 a x]
      rw [hmap]
      have hlen : 1 ≤ (b :: bs).length := by simp
      cases hq : Q a
      · simp [hq]
        omega
      · simp [hq]
        omega

/-- Claim C5 (amended): construct_intelligent_dataset performs no
post-fusion uniqueness check and raises no error on duplicate keys: every
occurrence of a (player_id, season) key in the position-filtered base stats
yields at least one output row with that key (left joins never drop a base
row), so duplicated base keys survive to the returned table. -/
theorem c5_amended (stats : List SRow) (team : List TeamRow)
    (pfr : List PfrJRow) (ftn : List FtnRow) (draft : List DraftRow)
    (roster : List RosterRow) (contracts : List ContractRow)
    (positions : List String) (p : String) (s : Int) :
    (stats.filter (fun r => positions.contains r.position)).countP
        (fun r => r.player_id == p && r.season == s)
      ≤ countKey p s (constructIntelligentDataset stats team pfr ftn draft
          roster contracts positions) := by
  set Pf : FusedRow → Bool := fun r => r.player_id == p && r.season == s
    with hPf
  set base := stats.filter (fun r => positions.contains r.position) with hb
  set f0 := base.map initFused with h0d
  set f1 := leftMerge f0 team
    (fun a b => a.recent_team == b.recent_team && a.season == b.season)
    (fun a b => { a with team_attempts := b.team_attempts }) id with h1d
  set f2 := leftMerge f1 pfr
    (fun a b => a.player_id == b.player_id && a.season == b.season)
    (fun a b => { a with rec_adot := b.rec_adot }) id with h2d
  set f3 := leftMerge f2 ftn
    (fun a b => a.player_id == b.player_id && a.season == b.season)
    (fun a b => { a with is_catchable_ball := b.is_catchable_ball }) id with h3d
  set f4 := leftMerge f3 draft
    (fun a b => a.player_id == b.player_id)
    (fun a b => { a with draft_round := b.draft_round }) id with h4d
  set f5 := leftMerge f4 roster
    (fun a b => a.player_id == b.player_id && a.season == b.season)
    (fun a b => { a with birth := b.birth, years_exp := b.years_exp }) id
    with h5d
  set f6 := leftMerge f5 contracts
    (fun a b => a.player_id == b.player_id && a.season == b.season)
    (fun a b => { a with apy := b.apy }) id with h6d
  set f7 := f6.map (fun a => { a with season_age := seasonAge a.season a.birth })
    with h7d
  have hcid : constructIntelligentDataset stats team pfr ftn draft roster
      contracts positions = List.insertionSort fusedLe f7 := rfl
  have hc0 : base.countP (fun r => r.player_id == p && r.season == s)
      = f0.countP Pf := by
    rw [h0d, List.countP_map]
    rfl
  have hc1 : f0.countP Pf ≤ f1.countP Pf :=
    leftMerge_countP _ _ _ _ _ Pf Pf (fun a b => rfl) (fun a => rfl)
  have hc2 : f1.countP Pf ≤ f2.countP Pf :=
    leftMerge_countP _ _ _ _ _ Pf Pf (fun a b => rfl) (fun a => rfl)
  have hc3 : f2.countP Pf ≤ f3.countP Pf :=
    leftMerge_countP _ _ _ _ _ Pf Pf (fun a b => rfl) (fun a => rfl)
  have hc4 : f3.countP Pf ≤ f4.countP Pf :=
    leftMerge_countP _ _ _ _ _ Pf Pf (fun a b => rfl) (fun a => rfl)
  have hc5 : f4.countP Pf ≤ f5.countP Pf :=
    leftMerge_countP _ _ _ _ _ Pf Pf (fun a b => rfl) (fun a => rfl)
  have hc6 : f5.countP Pf ≤ f6.countP Pf :=
    leftMerge_countP _ _ _ _ _ Pf Pf (fun a b => rfl) (fun a => rfl)
  have hc7 : f6.countP Pf = f7.countP Pf := by
    rw [h7d, List.countP_map]
    rfl
  have hc8 : f7.countP Pf = (List.insertionSort fusedLe f7).countP Pf :=
    ((List.perm_insertionSort fusedLe f7).countP_eq Pf).symm
  rw [hcid]
  unfold countKey
  rw [← hc8, ← hc7]
  calc base.countP (fun r => r.player_id == p && r.season == s)
      = f0.countP Pf := hc0
    _ ≤ f1.countP Pf := hc1
    _ ≤ f2.countP Pf := hc2
    _ ≤ f3.countP Pf := hc3
    _ ≤ f4.countP Pf := hc4
    _ ≤ f5.countP Pf := hc5
    _ ≤ f6.countP Pf := hc6

/-- Claim C5, counterexample: a base-stats table holding (p1, 2024) twice
flows through construct_intelligent_dataset into an output table holding
(p1, 2024) twice — no uniqueness check fires and no error is raised. -/
theorem c5_counterexample :
    2 ≤ countKey "p1" 2024 (constructIntelligentDataset dupStats [] [] [] []
      [] [] ["QB", "RB", "WR", "TE"]) := by decide
